import Mathlib

/-!
# Verification of the ww_gacha_sim banner configuration and draw engine

Shallow embedding of the gacha simulator:
* the draw state machine, translated from `gacha_flowchart.md` (node letters
  from the flowchart are cited next to each branch);
* the effective-rate function `caculate_rate_5star` (the flowchart names it
  at node C; its body is not in the sources, so it is modelled from the spec);
* the client-side banner validation `BannerManager.validateForm` and the
  UP-item bookkeeping `removeIncludedItem` / `validateUpItems` /
  `clearAllIncludedItems`, translated from `src/web/resources/app.js`.

Probabilities and random samples are modelled as rationals; pull counters as
naturals.
-/

/-- Rarity tier of a draw outcome. -/
inductive Rarity where
  | five
  | four
  | three
deriving DecidableEq

/-- One soft-pity escalation interval, as in the config JSON written by
`saveBanner` (`{start_pull, end_pull, increment}`). -/
structure SoftPityInterval where
  start_pull : ℕ
  end_pull : ℕ
  increment : ℚ
deriving DecidableEq

/-- Per-tier pity progression (`probability_progression['5star'|'4star']`). -/
structure ProbabilityProgression where
  hard_pity_pull : ℕ
  hard_pity_rate : ℚ
  soft_pity : List SoftPityInterval
deriving DecidableEq

/-- A banner configuration, mirroring the object built by
`BannerManager.saveBanner` in `app.js` (`probability_settings`,
`probability_progression`, `rate_up_items`, `included_items`). -/
structure BannerConfig where
  name : String
  base_5star_rate : ℚ
  base_4star_rate : ℚ
  up_5star_rate : ℚ
  up_4star_rate : ℚ
  progression_5star : ProbabilityProgression
  progression_4star : ProbabilityProgression
  rate_up_5star : List String
  rate_up_4star : List String
  included_5star : List String
  included_4star : List String
  included_3star : List String

/-- Maximum `end_pull` over the soft-pity entries, starting from 0, as the
loops in `validateForm` and `updateHardPityMinValue` compute it. -/
def maxSoftPityEnd (l : List SoftPityInterval) : ℕ :=
  l.foldl (fun m iv => max m iv.end_pull) 0

/-- `BannerManager.validateForm` (app.js lines 1054-1115): rejects an empty
name (the DOM value is trimmed as it is read, so `name` here stands for the
trimmed input), a negative base 5-star or 4-star rate, a negative derived
3-star rate, a rate sum further than 0.01 from 1, any soft-pity entry with
`start >= end`, and a hard-pity pull not exceeding the maximum soft-pity
end. -/
def validateForm (f : BannerConfig) : Bool :=
  if f.name = "" then false
  else if f.base_5star_rate < 0 then false
  else if f.base_4star_rate < 0 then false
  else if 1 - f.base_5star_rate - f.base_4star_rate < 0 then false
  else if 1/100 <
      |f.base_5star_rate + f.base_4star_rate +
        (1 - f.base_5star_rate - f.base_4star_rate) - 1| then false
  else if f.progression_5star.soft_pity.any
      (fun iv => iv.end_pull ≤ iv.start_pull) then false
  else if f.progression_5star.hard_pity_pull ≤
      maxSoftPityEnd f.progression_5star.soft_pity then false
  else true

/-- Pity counters and guaranteed-UP flags carried between draws
(spec §3 `PityState`; the flowchart's pity_5star / pity_4star /
_5star_guaranteed / _4star_guaranteed). -/
structure PityState where
  pulls_since_5star : ℕ
  pulls_since_4star : ℕ
  guaranteed_5star_up : Bool
  guaranteed_4star_up : Bool
deriving DecidableEq

/-- Fresh pity state: counters 0, flags false. -/
def initialPityState : PityState := ⟨0, 0, false, false⟩

/-- Sum of the increments of the soft-pity intervals whose `start_pull` is at
most the current pull index. -/
def softPityBonus (soft : List SoftPityInterval) (k : ℕ) : ℚ :=
  ((soft.filter (fun iv => iv.start_pull ≤ k)).map (fun iv => iv.increment)).sum

/-- Modelled from the spec: the body of `caculate_rate_5star` /
`caculate_rate_4star` is not among the sources (the flowchart only names the
function at nodes C and F).  Spec §4.1: the effective rate at pull `k` is the
base rate plus the increments of every soft-pity interval with
`start_pull ≤ k`, clamped to `hard_pity_rate` once `k ≥ hard_pity_pull`. -/
def caculate_rate (base : ℚ) (prog : ProbabilityProgression) (k : ℕ) : ℚ :=
  if prog.hard_pity_pull ≤ k then prog.hard_pity_rate
  else base + softPityBonus prog.soft_pity k

/-- Effective 5-star rate at pull `k` (flowchart node C computes it at
`pity_5star + 1`). -/
def caculate_rate_5star (f : BannerConfig) (k : ℕ) : ℚ :=
  caculate_rate f.base_5star_rate f.progression_5star k

/-- Effective 4-star rate at pull `k` (flowchart node F computes it at
`pity_4star + 1`). -/
def caculate_rate_4star (f : BannerConfig) (k : ℕ) : ℚ :=
  caculate_rate f.base_4star_rate f.progression_4star k

/-- Outcome of one draw: the tier and whether the item came from the UP
subset (flowchart node AB returns these plus the new counters/flags). -/
structure DrawResult where
  rarity : Rarity
  is_up : Bool
deriving DecidableEq

/-- One draw, translated from `gacha_flowchart.md`.
`r` is the single uniform sample `local_random` of node B, compared
unchanged against the 5-star rate (node D) and then the 4-star rate
(node Q).  `upRoll` is the separate UP-resolution sample (spec §4.1: when
the guaranteed flag is off, the UP check draws again against the UP rate).
On a 5-star hit: node G resets the 5-star counter, nodes H/I reset the
4-star counter exactly when this pull reached the 4-star hard pity, and
nodes J-O resolve UP and set the guaranteed flag to the negation of the UP
outcome.  On a 4-star hit: nodes T/U reset the 4-star counter and advance
the 5-star counter; nodes V-AA mirror the UP resolution.  On a 3-star
outcome (node S) both counters advance. -/
def draw (f : BannerConfig) (st : PityState) (r upRoll : ℚ) :
    DrawResult × PityState :=
  if r < caculate_rate_5star f (st.pulls_since_5star + 1) then
    let isUp := st.guaranteed_5star_up || decide (upRoll < f.up_5star_rate)
    ({ rarity := .five, is_up := isUp },
     { pulls_since_5star := 0,
       pulls_since_4star :=
         if f.progression_4star.hard_pity_pull ≤ st.pulls_since_4star + 1
         then 0 else st.pulls_since_4star,
       guaranteed_5star_up := !isUp,
       guaranteed_4star_up := st.guaranteed_4star_up })
  else if r < caculate_rate_4star f (st.pulls_since_4star + 1) then
    let isUp := st.guaranteed_4star_up || decide (upRoll < f.up_4star_rate)
    ({ rarity := .four, is_up := isUp },
     { pulls_since_5star := st.pulls_since_5star + 1,
       pulls_since_4star := 0,
       guaranteed_5star_up := st.guaranteed_5star_up,
       guaranteed_4star_up := !isUp })
  else
    ({ rarity := .three, is_up := false },
     { pulls_since_5star := st.pulls_since_5star + 1,
       pulls_since_4star := st.pulls_since_4star + 1,
       guaranteed_5star_up := st.guaranteed_5star_up,
       guaranteed_4star_up := st.guaranteed_4star_up })

/-- The pair of random samples consumed by one draw. -/
structure DrawRand where
  r : ℚ
  up : ℚ

/-- State after `n` draws starting from the initial pity state, feeding the
`n`-th sample pair of `inp` to the `n`-th draw. -/
def statesFrom (f : BannerConfig) (inp : ℕ → DrawRand) : ℕ → PityState
  | 0 => initialPityState
  | n + 1 => (draw f (statesFrom f inp n) (inp n).r (inp n).up).2

/-- Result of the `n`-th draw of the sequence. -/
def resultAt (f : BannerConfig) (inp : ℕ → DrawRand) (n : ℕ) : DrawResult :=
  (draw f (statesFrom f inp n) (inp n).r (inp n).up).1

/-- The `BannerManager` item-selection state relevant to the UP-subset
invariant: the included pools and the selected (UP) sets per tier. -/
structure ItemSelections where
  included5StarItems : Finset String
  included4StarItems : Finset String
  included3StarItems : Finset String
  selected5StarItems : Finset String
  selected4StarItems : Finset String

/-- `BannerManager.removeIncludedItem` (app.js lines 675-708): removes the
item from the rarity's included set, and, if present, also from that
rarity's UP set. -/
def removeIncludedItem (s : ItemSelections) (itemName : String) (rarity : ℕ) :
    ItemSelections :=
  if rarity = 5 then
    { s with
        included5StarItems := s.included5StarItems.erase itemName
        selected5StarItems :=
          if itemName ∈ s.selected5StarItems then
            s.selected5StarItems.erase itemName
          else s.selected5StarItems }
  else if rarity = 4 then
    { s with
        included4StarItems := s.included4StarItems.erase itemName
        selected4StarItems :=
          if itemName ∈ s.selected4StarItems then
            s.selected4StarItems.erase itemName
          else s.selected4StarItems }
  else
    { s with included3StarItems := s.included3StarItems.erase itemName }

/-- `BannerManager.validateUpItems` (app.js lines 806-834): collects the UP
items absent from their tier's included set and deletes each of them. -/
def validateUpItems (s : ItemSelections) : ItemSelections :=
  { s with
      selected5StarItems := s.selected5StarItems \
        s.selected5StarItems.filter (fun item => item ∉ s.included5StarItems)
      selected4StarItems := s.selected4StarItems \
        s.selected4StarItems.filter (fun item => item ∉ s.included4StarItems) }

/-- `BannerManager.clearAllIncludedItems` (app.js lines 837-875): empties the
rarity's included set and deletes every previously included item from that
rarity's UP set (for 3-star there is no UP set). -/
def clearAllIncludedItems (s : ItemSelections) (rarity : ℕ) : ItemSelections :=
  if rarity = 5 then
    { s with
        included5StarItems := ∅
        selected5StarItems := s.selected5StarItems \ s.included5StarItems }
  else if rarity = 4 then
    { s with
        included4StarItems := ∅
        selected4StarItems := s.selected4StarItems \ s.included4StarItems }
  else
    { s with included3StarItems := ∅ }

/-- The UP-subset-of-included containment for the two tiers that have UP
sets. -/
def upSubsetInv (s : ItemSelections) : Prop :=
  s.selected5StarItems ⊆ s.included5StarItems ∧
  s.selected4StarItems ⊆ s.included4StarItems

instance (s : ItemSelections) : Decidable (upSubsetInv s) := by
  unfold upSubsetInv
  infer_instance

/-- A well-formed banner: the concrete scenario of spec §8 (base 5-star rate
0.008, soft pity {74,79,+0.06}, hard pity at pull 80 with rate 1). -/
def cfgScenario : BannerConfig :=
  { name := "scenario"
    base_5star_rate := 1/125
    base_4star_rate := 3/50
    up_5star_rate := 1/2
    up_4star_rate := 1/2
    progression_5star := ⟨80, 1, [⟨74, 79, 3/50⟩]⟩
    progression_4star := ⟨10, 1, []⟩
    rate_up_5star := ["u5"]
    rate_up_4star := ["u4"]
    included_5star := ["u5", "n5"]
    included_4star := ["u4", "n4"]
    included_3star := ["n3"] }

/-- State with the 5-star counter at 79 (the next pull is pull 80). -/
def st79 : PityState := ⟨79, 0, false, false⟩

/-- A banner on which every pull is a 5-star hit (base 5-star rate 1) and no
UP roll ever succeeds (UP rates 0); its 4-star hard pity sits at pull 10. -/
def cfgAllFive : BannerConfig :=
  { name := "allfive"
    base_5star_rate := 1
    base_4star_rate := 0
    up_5star_rate := 0
    up_4star_rate := 0
    progression_5star := ⟨90, 1, []⟩
    progression_4star := ⟨10, 1, []⟩
    rate_up_5star := ["u5"]
    rate_up_4star := ["u4"]
    included_5star := ["u5", "n5"]
    included_4star := ["u4", "n4"]
    included_3star := ["n3"] }

/-- A banner on which every pull is a 4-star hit (base 4-star rate 1). -/
def cfgAllFour : BannerConfig :=
  { cfgAllFive with name := "allfour", base_5star_rate := 0, base_4star_rate := 1 }

/-- State with the 4-star counter one short of the 4-star hard pity of
`cfgAllFive`. -/
def st9 : PityState := ⟨0, 9, false, false⟩

/-- Random source that always returns 0 for both samples. -/
def inpZero : ℕ → DrawRand := fun _ => ⟨0, 0⟩

/-- A banner with a negative soft-pity increment; `validateForm` accepts it
because it never looks at the increment value. -/
def cfgNegInc : BannerConfig :=
  { cfgAllFive with
      name := "neg"
      base_5star_rate := 1/100
      base_4star_rate := 0
      progression_5star := ⟨10, 1, [⟨2, 5, -(1/100)⟩]⟩ }

/-- The scenario banner with the 5-star hard-pity rate set to 1/2 instead of
1; `validateForm` accepts it because it never looks at `hard_pity_rate`. -/
def cfgHalfRate : BannerConfig :=
  { cfgScenario with
      name := "half"
      progression_5star := ⟨80, 1/2, [⟨74, 79, 3/50⟩]⟩ }

/-- A banner with a positive base 5-star rate and an empty 5-star included
pool. -/
def cfgEmptyPool : BannerConfig :=
  { name := "empty"
    base_5star_rate := 1/100
    base_4star_rate := 0
    up_5star_rate := 1/2
    up_4star_rate := 1/2
    progression_5star := ⟨80, 1, []⟩
    progression_4star := ⟨10, 1, []⟩
    rate_up_5star := []
    rate_up_4star := []
    included_5star := []
    included_4star := []
    included_3star := [] }

/-- The scenario banner with a 5-star UP rate of 2, outside [0,1];
`validateForm` accepts it because it never looks at the UP rates. -/
def cfgUpTwo : BannerConfig :=
  { cfgScenario with name := "uptwo", up_5star_rate := 2 }

/-- A banner whose soft-pity intervals are out of order and overlapping. -/
def cfgOverlap : BannerConfig :=
  { cfgAllFive with
      name := "overlap"
      base_5star_rate := 1/100
      base_4star_rate := 0
      progression_5star := ⟨30, 1, [⟨10, 20, 1/100⟩, ⟨5, 15, 1/100⟩]⟩ }

/-- A concrete `BannerManager` selection state satisfying the UP-subset
containment. -/
def sel0 : ItemSelections := ⟨{"a"}, {"b"}, ∅, {"a"}, {"b"}⟩

/-! ## Helper lemmas about the validator -/

/-- Spelling out the conditions a form must satisfy to pass
`validateForm`. -/
lemma validateForm_checks (f : BannerConfig) (h : validateForm f = true) :
    f.name ≠ "" ∧
    0 ≤ f.base_5star_rate ∧
    0 ≤ f.base_4star_rate ∧
    0 ≤ 1 - f.base_5star_rate - f.base_4star_rate ∧
    (∀ iv ∈ f.progression_5star.soft_pity, iv.start_pull < iv.end_pull) ∧
    maxSoftPityEnd f.progression_5star.soft_pity <
      f.progression_5star.hard_pity_pull := by
  unfold validateForm at h
  split_ifs at h with h1 h2 h3 h4 h5 h6 h7
  refine ⟨h1, not_lt.mp h2, not_lt.mp h3, not_lt.mp h4, ?_, not_le.mp h7⟩
  intro iv hiv
  by_contra hle
  exact h6 (List.any_eq_true.mpr ⟨iv, hiv, by simpa using not_lt.mp hle⟩)

/-- The accumulator never decreases along the max-fold. -/
lemma foldl_max_acc_le (l : List SoftPityInterval) (acc : ℕ) :
    acc ≤ l.foldl (fun m iv => max m iv.end_pull) acc := by
  induction l generalizing acc with
  | nil => simp
  | cons a t ih => exact le_trans (le_max_left _ _) (ih _)

/-- Every member's end is bounded by the max-fold. -/
lemma le_maxSoftPityEnd (l : List SoftPityInterval) (iv : SoftPityInterval)
    (h : iv ∈ l) : iv.end_pull ≤ maxSoftPityEnd l := by
  unfold maxSoftPityEnd
  suffices haux : ∀ (t : List SoftPityInterval) (acc : ℕ), iv ∈ t →
      iv.end_pull ≤ t.foldl (fun m x => max m x.end_pull) acc from haux l 0 h
  intro t
  induction t with
  | nil => intro acc hmem; cases hmem
  | cons a s ih =>
    intro acc hmem
    rcases List.mem_cons.mp hmem with rfl | hmem'
    · calc iv.end_pull ≤ max acc iv.end_pull := le_max_right _ _
        _ ≤ _ := foldl_max_acc_le s _
    · exact ih _ hmem'

/-- The max-fold stays below any strict bound on the members and the
accumulator. -/
lemma maxSoftPityEnd_lt (l : List SoftPityInterval) (h : ℕ)
    (hh : 0 < h) (hl : ∀ iv ∈ l, iv.end_pull < h) : maxSoftPityEnd l < h := by
  unfold maxSoftPityEnd
  suffices haux : ∀ (t : List SoftPityInterval) (acc : ℕ), acc < h →
      (∀ iv ∈ t, iv.end_pull < h) →
      t.foldl (fun m iv => max m iv.end_pull) acc < h from haux l 0 hh hl
  intro t
  induction t with
  | nil => intro acc hacc _; simpa using hacc
  | cons a s ih =>
    intro acc hacc hmem
    exact ih _ (max_lt hacc (hmem a (List.mem_cons_self a s)))
      (fun iv hiv => hmem iv (List.mem_cons_of_mem a hiv))

/-- The soft-pity bonus is monotone in the pull index when every increment
is non-negative. -/
lemma softPityBonus_mono (l : List SoftPityInterval)
    (hpos : ∀ iv ∈ l, 0 ≤ iv.increment) (k1 k2 : ℕ) (hk : k1 ≤ k2) :
    softPityBonus l k1 ≤ softPityBonus l k2 := by
  induction l with
  | nil => simp [softPityBonus]
  | cons a t ih =>
    have hpos' : ∀ iv ∈ t, 0 ≤ iv.increment :=
      fun iv hiv => hpos iv (List.mem_cons_of_mem a hiv)
    have hiht := ih hpos'
    unfold softPityBonus at *
    by_cases h1 : a.start_pull ≤ k1
    · have h2 : a.start_pull ≤ k2 := le_trans h1 hk
      simpa [List.filter_cons, h1, h2] using add_le_add_left hiht a.increment
    · by_cases h2 : a.start_pull ≤ k2
      · have ha : 0 ≤ a.increment := hpos a (List.mem_cons_self a t)
        simp only [List.filter_cons, h1, h2]
        calc ((t.filter (fun iv => iv.start_pull ≤ k1)).map
                (fun iv => iv.increment)).sum
            ≤ ((t.filter (fun iv => iv.start_pull ≤ k2)).map
                (fun iv => iv.increment)).sum := hiht
          _ ≤ _ := by simp [le_add_of_nonneg_left ha]
      · simpa [List.filter_cons, h1, h2] using hiht

/-! ## Helper lemmas about a single draw -/

/-- A draw is a 5-star hit exactly when the sample is below the effective
5-star rate. -/
lemma draw_five_iff (f : BannerConfig) (st : PityState) (r u : ℚ) :
    (draw f st r u).1.rarity = Rarity.five ↔
      r < caculate_rate_5star f (st.pulls_since_5star + 1) := by
  unfold draw
  split_ifs with h1 h2 <;> simp [h1]

/-- A non-UP 5-star hit raises the 5-star guaranteed flag. -/
lemma draw_flag5_set (f : BannerConfig) (st : PityState) (r u : ℚ)
    (h5 : (draw f st r u).1.rarity = Rarity.five)
    (hup : (draw f st r u).1.is_up = false) :
    (draw f st r u).2.guaranteed_5star_up = true := by
  unfold draw at *
  split_ifs at * <;> simp_all

/-- With the 5-star guaranteed flag raised, a 5-star hit is an UP item. -/
lemma draw_flag5_forces (f : BannerConfig) (st : PityState) (r u : ℚ)
    (hflag : st.guaranteed_5star_up = true)
    (h5 : (draw f st r u).1.rarity = Rarity.five) :
    (draw f st r u).1.is_up = true := by
  unfold draw at *
  split_ifs at * <;> simp_all

/-- A draw that is not a 5-star hit leaves the 5-star guaranteed flag
unchanged. -/
lemma draw_flag5_frozen (f : BannerConfig) (st : PityState) (r u : ℚ)
    (h5 : (draw f st r u).1.rarity ≠ Rarity.five) :
    (draw f st r u).2.guaranteed_5star_up = st.guaranteed_5star_up := by
  unfold draw at *
  split_ifs at * <;> simp_all

/-- A non-UP 4-star hit raises the 4-star guaranteed flag. -/
lemma draw_flag4_set (f : BannerConfig) (st : PityState) (r u : ℚ)
    (h4 : (draw f st r u).1.rarity = Rarity.four)
    (hup : (draw f st r u).1.is_up = false) :
    (draw f st r u).2.guaranteed_4star_up = true := by
  unfold draw at *
  split_ifs at * <;> simp_all

/-- With the 4-star guaranteed flag raised, a 4-star hit is an UP item. -/
lemma draw_flag4_forces (f : BannerConfig) (st : PityState) (r u : ℚ)
    (hflag : st.guaranteed_4star_up = true)
    (h4 : (draw f st r u).1.rarity = Rarity.four) :
    (draw f st r u).1.is_up = true := by
  unfold draw at *
  split_ifs at * <;> simp_all

/-- A draw that is not a 4-star hit leaves the 4-star guaranteed flag
unchanged. -/
lemma draw_flag4_frozen (f : BannerConfig) (st : PityState) (r u : ℚ)
    (h4 : (draw f st r u).1.rarity ≠ Rarity.four) :
    (draw f st r u).2.guaranteed_4star_up = st.guaranteed_4star_up := by
  unfold draw at *
  split_ifs at * <;> simp_all

/-! ## Claim theorems -/

/-- C1 (amended): per-draw counter updates. A 5-star outcome resets
`pulls_since_5star` to 0 and leaves `pulls_since_4star` unchanged UNLESS the
pull reached the 4-star hard pity (`pulls_since_4star + 1` at or above the
4-star `hard_pity_pull`), in which case `pulls_since_4star` is also reset to
0 (flowchart nodes H/I). A 4-star outcome resets `pulls_since_4star` to 0
and increments `pulls_since_5star` by exactly 1; a 3-star outcome increments
both counters by exactly 1. `draw` is the only operation of the model that
touches the counters. -/
theorem c1_counter_updates (f : BannerConfig) (st : PityState) (r u : ℚ) :
    ((draw f st r u).1.rarity = Rarity.five →
      (draw f st r u).2.pulls_since_5star = 0 ∧
      (draw f st r u).2.pulls_since_4star =
        (if f.progression_4star.hard_pity_pull ≤ st.pulls_since_4star + 1
         then 0 else st.pulls_since_4star)) ∧
    ((draw f st r u).1.rarity = Rarity.four →
      (draw f st r u).2.pulls_since_4star = 0 ∧
      (draw f st r u).2.pulls_since_5star = st.pulls_since_5star + 1) ∧
    ((draw f st r u).1.rarity = Rarity.three →
      (draw f st r u).2.pulls_since_5star = st.pulls_since_5star + 1 ∧
      (draw f st r u).2.pulls_since_4star = st.pulls_since_4star + 1) := by
  unfold draw
  split_ifs <;> simp_all

/-- C1 witness: a concrete 5-star hit, with the counter updates given by
`c1_counter_updates`. -/
theorem c1_counter_updates_witness :
    (draw cfgAllFive st9 0 0).2.pulls_since_5star = 0 ∧
    (draw cfgAllFive st9 0 0).2.pulls_since_4star =
      (if cfgAllFive.progression_4star.hard_pity_pull ≤
          st9.pulls_since_4star + 1
       then 0 else st9.pulls_since_4star) :=
  (c1_counter_updates cfgAllFive st9 0 0).1
    (by norm_num [draw, caculate_rate_5star, caculate_rate, softPityBonus,
      cfgAllFive, st9])

/-- C1 counterexample: a 5-star hit drawn while the 4-star counter is one
short of the 4-star hard pity does NOT leave `pulls_since_4star` unchanged:
the counter is reset from 9 to 0. -/
theorem c1_five_resets_4star_cex :
    (draw cfgAllFive st9 0 0).1.rarity = Rarity.five ∧
    (draw cfgAllFive st9 0 0).2.pulls_since_4star ≠ st9.pulls_since_4star := by
  norm_num [draw, caculate_rate_5star, caculate_rate, softPityBonus,
    cfgAllFive, st9]

/-- C4 (amended): at or past the hard-pity pull the effective 5-star rate
equals `hard_pity_rate`, and PROVIDED that rate is at least 1 (its normal
value) the draw yields a 5-star outcome for every sample `r` in [0,1).
`validateForm` does not constrain `hard_pity_rate`, so the guarantee needs
that extra hypothesis. -/
theorem c4_hard_pity_guarantee (f : BannerConfig) (st : PityState) (r u : ℚ)
    (hhard : f.progression_5star.hard_pity_pull ≤ st.pulls_since_5star + 1)
    (hrate : 1 ≤ f.progression_5star.hard_pity_rate)
    (hr0 : 0 ≤ r) (hr1 : r < 1) :
    caculate_rate_5star f (st.pulls_since_5star + 1) =
      f.progression_5star.hard_pity_rate ∧
    (draw f st r u).1.rarity = Rarity.five := by
  have hrate5 : caculate_rate_5star f (st.pulls_since_5star + 1) =
      f.progression_5star.hard_pity_rate := by
    unfold caculate_rate_5star caculate_rate
    rw [if_pos hhard]
  refine ⟨hrate5, ?_⟩
  have hlt : r < caculate_rate_5star f (st.pulls_since_5star + 1) := by
    rw [hrate5]; exact lt_of_lt_of_le hr1 hrate
  unfold draw
  rw [if_pos hlt]

/-- C4 witness: the spec's concrete scenario (base rate 0.008, soft pity
{74,79,+0.06}, hard pity 80, counter at 79, hard-pity rate 1): the rate is
clamped to 1 and the draw is a 5-star hit. -/
theorem c4_hard_pity_guarantee_witness :
    caculate_rate_5star cfgScenario (st79.pulls_since_5star + 1) =
      cfgScenario.progression_5star.hard_pity_rate ∧
    (draw cfgScenario st79 (99/100) 0).1.rarity = Rarity.five :=
  c4_hard_pity_guarantee cfgScenario st79 (99/100) 0
    (by norm_num [cfgScenario, st79]) (by norm_num [cfgScenario])
    (by norm_num) (by norm_num)

/-- C4 counterexample: a config accepted by `validateForm` whose hard-pity
rate is 1/2; at the hard-pity pull the draw with sample 3/4 is NOT a 5-star
outcome, so the hard-pity pull is not guaranteed for every validated
config. -/
theorem c4_hard_pity_rate_cex :
    validateForm cfgHalfRate = true ∧
    cfgHalfRate.progression_5star.hard_pity_pull ≤
      st79.pulls_since_5star + 1 ∧
    (0:ℚ) ≤ 3/4 ∧ (3/4:ℚ) < 1 ∧
    (draw cfgHalfRate st79 (3/4) 0).1.rarity ≠ Rarity.five := by
  refine ⟨?_, by norm_num [cfgHalfRate, cfgScenario, st79], by norm_num,
    by norm_num, ?_⟩
  · norm_num [validateForm, cfgHalfRate, cfgScenario, maxSoftPityEnd]
    decide
  · norm_num [draw, caculate_rate_5star, caculate_rate_4star, caculate_rate,
      softPityBonus, cfgHalfRate, cfgScenario, st79]
    decide

/-- C5 (amended): `validateForm` never inspects the included pools or the
UP sets, so its verdict is independent of them; in particular a config with
an empty 5-star included pool and a positive base 5-star rate passes
validation (see the counterexample) — nothing in the sources rejects it. -/
theorem c5_pool_independent (f : BannerConfig) (i5 i4 i3 u5 u4 : List String) :
    validateForm { f with
        included_5star := i5
        included_4star := i4
        included_3star := i3
        rate_up_5star := u5
        rate_up_4star := u4 } =
      validateForm f := rfl

/-- C5 witness: replacing the pools of a concrete config does not change the
validation verdict. -/
theorem c5_pool_independent_witness :
    validateForm { cfgEmptyPool with
        included_5star := ["x"]
        included_4star := []
        included_3star := []
        rate_up_5star := []
        rate_up_4star := [] } = validateForm cfgEmptyPool :=
  c5_pool_independent cfgEmptyPool ["x"] [] [] [] []

/-- C5 counterexample: the config with `included_item_ids['5star'] = []` and
`base_5star_rate = 0.01` IS accepted by `validateForm` — no pool-emptiness
error exists. -/
theorem c5_empty_pool_accepted_cex :
    validateForm cfgEmptyPool = true ∧ cfgEmptyPool.included_5star = [] ∧
    cfgEmptyPool.base_5star_rate = 1/100 :=
  ⟨by norm_num [validateForm, cfgEmptyPool, maxSoftPityEnd]; decide, rfl, rfl⟩

/-- C9: one draw compares the single sample `local_random` first against the
effective 5-star rate and then, unmodified and without rescaling, against
the effective 4-star rate: the 5-star band is [0, rate5), the 4-star band is
[rate5, rate4), and the 3-star band is everything at or above both rates. -/
theorem c9_single_sample_bands (f : BannerConfig) (st : PityState) (r u : ℚ) :
    ((draw f st r u).1.rarity = Rarity.five ↔
      r < caculate_rate_5star f (st.pulls_since_5star + 1)) ∧
    ((draw f st r u).1.rarity = Rarity.four ↔
      caculate_rate_5star f (st.pulls_since_5star + 1) ≤ r ∧
      r < caculate_rate_4star f (st.pulls_since_4star + 1)) ∧
    ((draw f st r u).1.rarity = Rarity.three ↔
      caculate_rate_5star f (st.pulls_since_5star + 1) ≤ r ∧
      caculate_rate_4star f (st.pulls_since_4star + 1) ≤ r) := by
  unfold draw
  split_ifs with h1 h2 <;> simp_all [not_lt]

/-- C9 witness: the band characterisation instantiated at a concrete
config, state and sample. -/
theorem c9_single_sample_bands_witness :
    ((draw cfgScenario st79 (99/100) 0).1.rarity = Rarity.five ↔
      99/100 < caculate_rate_5star cfgScenario (st79.pulls_since_5star + 1)) ∧
    ((draw cfgScenario st79 (99/100) 0).1.rarity = Rarity.four ↔
      caculate_rate_5star cfgScenario (st79.pulls_since_5star + 1) ≤ 99/100 ∧
      99/100 < caculate_rate_4star cfgScenario (st79.pulls_since_4star + 1)) ∧
    ((draw cfgScenario st79 (99/100) 0).1.rarity = Rarity.three ↔
      caculate_rate_5star cfgScenario (st79.pulls_since_5star + 1) ≤ 99/100 ∧
      caculate_rate_4star cfgScenario (st79.pulls_since_4star + 1) ≤ 99/100) :=
  c9_single_sample_bands cfgScenario st79 (99/100) 0

/-- C3 (amended): for every validated config the effective 5-star rate at
pull `k` below the hard pity equals the base rate plus the increments of all
soft-pity intervals whose `start_pull ≤ k`, and from the hard-pity pull on
it equals `hard_pity_rate`; the rate is non-decreasing over
`1 ≤ k ≤ hard_pity_pull − 1` PROVIDED every soft-pity increment is
non-negative (`validateForm` never checks the increment sign, so
monotonicity fails for some validated configs — see the counterexample). -/
theorem c3_effective_rate (f : BannerConfig) (h : validateForm f = true) :
    (∀ k, 1 ≤ k → k ≤ f.progression_5star.hard_pity_pull - 1 →
      caculate_rate_5star f k =
        f.base_5star_rate +
          ((f.progression_5star.soft_pity.filter
              (fun iv => iv.start_pull ≤ k)).map
            (fun iv => iv.increment)).sum) ∧
    (∀ k, f.progression_5star.hard_pity_pull ≤ k →
      caculate_rate_5star f k = f.progression_5star.hard_pity_rate) ∧
    ((∀ iv ∈ f.progression_5star.soft_pity, 0 ≤ iv.increment) →
      ∀ k1 k2, 1 ≤ k1 → k1 ≤ k2 →
        k2 ≤ f.progression_5star.hard_pity_pull - 1 →
        caculate_rate_5star f k1 ≤ caculate_rate_5star f k2) := by
  obtain ⟨-, -, -, -, -, hmax⟩ := validateForm_checks f h
  have hhard : 1 ≤ f.progression_5star.hard_pity_pull := by omega
  refine ⟨?_, ?_, ?_⟩
  · intro k hk1 hk2
    have hlt : ¬ f.progression_5star.hard_pity_pull ≤ k := by omega
    unfold caculate_rate_5star caculate_rate softPityBonus
    rw [if_neg hlt]
  · intro k hk
    unfold caculate_rate_5star caculate_rate
    rw [if_pos hk]
  · intro hpos k1 k2 hk1 hk12 hk2
    have hlt1 : ¬ f.progression_5star.hard_pity_pull ≤ k1 := by omega
    have hlt2 : ¬ f.progression_5star.hard_pity_pull ≤ k2 := by omega
    unfold caculate_rate_5star caculate_rate
    rw [if_neg hlt1, if_neg hlt2]
    exact add_le_add_left
      (softPityBonus_mono f.progression_5star.soft_pity hpos k1 k2 hk12) _

/-- C3 witness: the rate formula of `c3_effective_rate` evaluated at pull 74
of the scenario config. -/
theorem c3_effective_rate_witness :
    caculate_rate_5star cfgScenario 74 =
      cfgScenario.base_5star_rate +
        ((cfgScenario.progression_5star.soft_pity.filter
            (fun iv => iv.start_pull ≤ 74)).map
          (fun iv => iv.increment)).sum :=
  (c3_effective_rate cfgScenario
      (by norm_num [validateForm, cfgScenario, maxSoftPityEnd]; decide)).1
    74 (by norm_num) (by norm_num [cfgScenario])

/-- C3 counterexample: a config accepted by `validateForm` with a negative
soft-pity increment on which the effective 5-star rate strictly DECREASES
between pulls 1 and 2, both below the hard pity. -/
theorem c3_monotonic_cex :
    validateForm cfgNegInc = true ∧
    (2:ℕ) ≤ cfgNegInc.progression_5star.hard_pity_pull - 1 ∧
    caculate_rate_5star cfgNegInc 2 < caculate_rate_5star cfgNegInc 1 := by
  refine ⟨?_, by norm_num [cfgNegInc, cfgAllFive], ?_⟩
  · norm_num [validateForm, cfgNegInc, cfgAllFive, maxSoftPityEnd]
    decide
  · norm_num [caculate_rate_5star, caculate_rate, softPityBonus, cfgNegInc,
      cfgAllFive]

/-- C6 (amended): every config accepted by `validateForm` has base 5-star
and 4-star rates in [0,1], a non-negative derived 3-star rate, and the three
base rates sum to exactly 1; but the rate-sum check is vacuous — because the
3-star rate is derived as `1 − b5 − b4`, the checked sum differs from 1 by
exactly 0 for ALL inputs, never by more than the 0.01 tolerance — and the UP
rates (and hard-pity rates) are not constrained to [0,1] (see the
counterexample). -/
theorem c6_validated_rate_bounds (f : BannerConfig)
    (h : validateForm f = true) :
    (0 ≤ f.base_5star_rate ∧ f.base_5star_rate ≤ 1 ∧
     0 ≤ f.base_4star_rate ∧ f.base_4star_rate ≤ 1 ∧
     0 ≤ 1 - f.base_5star_rate - f.base_4star_rate ∧
     f.base_5star_rate + f.base_4star_rate +
       (1 - f.base_5star_rate - f.base_4star_rate) = 1) ∧
    ∀ x y : ℚ, |x + y + (1 - x - y) - 1| ≤ 1/100 := by
  obtain ⟨-, h5, h4, h3, -, -⟩ := validateForm_checks f h
  refine ⟨⟨h5, by linarith, h4, by linarith, h3, by ring⟩, ?_⟩
  intro x y
  have hzero : x + y + (1 - x - y) - 1 = 0 := by ring
  rw [hzero]
  norm_num

/-- C6 witness: the rate bounds instantiated at the accepted scenario
config, and the vacuity of the sum check at the inputs 2 and 3. -/
theorem c6_validated_rate_bounds_witness :
    (0 ≤ cfgScenario.base_5star_rate ∧ cfgScenario.base_5star_rate ≤ 1 ∧
     0 ≤ cfgScenario.base_4star_rate ∧ cfgScenario.base_4star_rate ≤ 1 ∧
     0 ≤ 1 - cfgScenario.base_5star_rate - cfgScenario.base_4star_rate ∧
     cfgScenario.base_5star_rate + cfgScenario.base_4star_rate +
       (1 - cfgScenario.base_5star_rate - cfgScenario.base_4star_rate) = 1) ∧
    |(2:ℚ) + 3 + (1 - 2 - 3) - 1| ≤ 1/100 :=
  ⟨(c6_validated_rate_bounds cfgScenario
      (by norm_num [validateForm, cfgScenario, maxSoftPityEnd]; decide)).1,
   (c6_validated_rate_bounds cfgScenario
      (by norm_num [validateForm, cfgScenario, maxSoftPityEnd]; decide)).2
     2 3⟩

/-- C6 counterexample: a config with a 5-star UP rate of 2 (outside [0,1])
is accepted by `validateForm`, so not every rate value of a validated config
lies in [0,1]. -/
theorem c6_up_rate_unchecked_cex :
    validateForm cfgUpTwo = true ∧ 1 < cfgUpTwo.up_5star_rate := by
  constructor
  · norm_num [validateForm, cfgUpTwo, cfgScenario, maxSoftPityEnd]
    decide
  · norm_num [cfgUpTwo, cfgScenario]

/-- C7: every config accepted by `validateForm` has `start_pull < end_pull`
in every soft-pity interval and a hard-pity pull strictly greater than every
interval's `end_pull`; contrapositively, every config violating either
condition is rejected. -/
theorem c7_soft_pity_bounds (f : BannerConfig) (h : validateForm f = true) :
    ∀ iv ∈ f.progression_5star.soft_pity,
      iv.start_pull < iv.end_pull ∧
      iv.end_pull < f.progression_5star.hard_pity_pull := by
  obtain ⟨-, -, -, -, hint, hmax⟩ := validateForm_checks f h
  intro iv hiv
  exact ⟨hint iv hiv,
    lt_of_le_of_lt (le_maxSoftPityEnd _ _ hiv) hmax⟩

/-- C7 witness: the bounds instantiated at the scenario config's single
soft-pity interval {74,79,+0.06}. -/
theorem c7_soft_pity_bounds_witness :
    (⟨74, 79, 3/50⟩ : SoftPityInterval).start_pull <
      (⟨74, 79, 3/50⟩ : SoftPityInterval).end_pull ∧
    (⟨74, 79, 3/50⟩ : SoftPityInterval).end_pull <
      cfgScenario.progression_5star.hard_pity_pull :=
  c7_soft_pity_bounds cfgScenario
    (by norm_num [validateForm, cfgScenario, maxSoftPityEnd]; decide)
    ⟨74, 79, 3/50⟩ (by simp [cfgScenario])

/-- C8 (amended): `validateForm` checks each soft-pity interval in
isolation (`start_pull < end_pull`) plus the hard-pity bound; it imposes NO
ordering or non-overlap condition, so any config whose intervals
individually pass is accepted regardless of their order or overlap. -/
theorem c8_order_not_checked (f : BannerConfig)
    (hname : ¬ f.name = "")
    (h5 : ¬ f.base_5star_rate < 0)
    (h4 : ¬ f.base_4star_rate < 0)
    (h3 : ¬ 1 - f.base_5star_rate - f.base_4star_rate < 0)
    (hiv : ∀ iv ∈ f.progression_5star.soft_pity,
      iv.start_pull < iv.end_pull)
    (hend : ∀ iv ∈ f.progression_5star.soft_pity,
      iv.end_pull < f.progression_5star.hard_pity_pull)
    (hhard : 1 ≤ f.progression_5star.hard_pity_pull) :
    validateForm f = true := by
  have hsum : ¬ (1/100 <
      |f.base_5star_rate + f.base_4star_rate +
        (1 - f.base_5star_rate - f.base_4star_rate) - 1|) := by
    have hzero : f.base_5star_rate + f.base_4star_rate +
        (1 - f.base_5star_rate - f.base_4star_rate) - 1 = 0 := by ring
    rw [hzero]
    norm_num
  have hany : ¬ (f.progression_5star.soft_pity.any
      (fun iv => iv.end_pull ≤ iv.start_pull) = true) := by
    rw [List.any_eq_true]
    rintro ⟨iv, hmem, hle⟩
    have hlt := hiv iv hmem
    simp only [decide_eq_true_eq] at hle
    omega
  have hmax : ¬ (f.progression_5star.hard_pity_pull ≤
      maxSoftPityEnd f.progression_5star.soft_pity) :=
    not_le.mpr (maxSoftPityEnd_lt _ _ (by omega) hend)
  unfold validateForm
  rw [if_neg hname, if_neg h5, if_neg h4, if_neg h3, if_neg hsum,
    if_neg hany, if_neg hmax]

/-- C8 witness: a config whose soft-pity list is out of order and
overlapping ({10,20} before {5,15}) is accepted by `validateForm`. -/
theorem c8_order_not_checked_witness : validateForm cfgOverlap = true :=
  c8_order_not_checked cfgOverlap
    (by norm_num [cfgOverlap, cfgAllFive]; decide)
    (by norm_num [cfgOverlap, cfgAllFive])
    (by norm_num [cfgOverlap, cfgAllFive])
    (by norm_num [cfgOverlap, cfgAllFive])
    (by intro iv hiv
        simp only [cfgOverlap, cfgAllFive, List.mem_cons,
          List.not_mem_nil, or_false] at hiv
        rcases hiv with rfl | rfl <;> norm_num [cfgOverlap, cfgAllFive])
    (by intro iv hiv
        simp only [cfgOverlap, cfgAllFive, List.mem_cons,
          List.not_mem_nil, or_false] at hiv
        rcases hiv with rfl | rfl <;> norm_num [cfgOverlap, cfgAllFive])
    (by norm_num [cfgOverlap, cfgAllFive])

/-- C8 counterexample: the overlapping, out-of-order soft-pity list
[{10,20,+0.01}, {5,15,+0.01}] is accepted by `validateForm`, so validation
does NOT reject overlapping or out-of-order intervals. -/
theorem c8_overlap_accepted_cex :
    validateForm cfgOverlap = true ∧
    cfgOverlap.progression_5star.soft_pity =
      [⟨10, 20, 1/100⟩, ⟨5, 15, 1/100⟩] := by
  constructor
  · norm_num [validateForm, cfgOverlap, cfgAllFive, maxSoftPityEnd]
    decide
  · rfl

/-- C2: in any sequence of draws from the initial pity state, between two
consecutive 5-star hits, if the first was a non-UP item then the second is
an UP item (never two non-UP 5-star hits in a row), and the analogous
property holds for 4-star hits. -/
theorem c2_consecutive_up_guarantee (f : BannerConfig) (inp : ℕ → DrawRand)
    (i j : ℕ) :
    (i < j → (resultAt f inp i).rarity = Rarity.five →
      (resultAt f inp i).is_up = false →
      (∀ k, i < k → k < j → (resultAt f inp k).rarity ≠ Rarity.five) →
      (resultAt f inp j).rarity = Rarity.five →
      (resultAt f inp j).is_up = true) ∧
    (i < j → (resultAt f inp i).rarity = Rarity.four →
      (resultAt f inp i).is_up = false →
      (∀ k, i < k → k < j → (resultAt f inp k).rarity ≠ Rarity.four) →
      (resultAt f inp j).rarity = Rarity.four →
      (resultAt f inp j).is_up = true) := by
  constructor
  · intro hij h5i hupi hmid h5j
    have key : ∀ d, i + d + 1 ≤ j →
        (statesFrom f inp (i + d + 1)).guaranteed_5star_up = true := by
      intro d
      induction d with
      | zero =>
        intro _
        exact draw_flag5_set f (statesFrom f inp i) (inp i).r (inp i).up
          h5i hupi
      | succ d ih =>
        intro hle
        have hmidd : (resultAt f inp (i + d + 1)).rarity ≠ Rarity.five :=
          hmid (i + d + 1) (by omega) (by omega)
        have hfro := draw_flag5_frozen f (statesFrom f inp (i + d + 1))
          (inp (i + d + 1)).r (inp (i + d + 1)).up hmidd
        calc (statesFrom f inp (i + (d + 1) + 1)).guaranteed_5star_up
            = (statesFrom f inp (i + d + 1)).guaranteed_5star_up := hfro
          _ = true := ih (by omega)
    have hjj : i + (j - i - 1) + 1 = j := by omega
    have hflag : (statesFrom f inp j).guaranteed_5star_up = true := by
      rw [← hjj]
      exact key (j - i - 1) (by omega)
    exact draw_flag5_forces f (statesFrom f inp j) (inp j).r (inp j).up
      hflag h5j
  · intro hij h4i hupi hmid h4j
    have key : ∀ d, i + d + 1 ≤ j →
        (statesFrom f inp (i + d + 1)).guaranteed_4star_up = true := by
      intro d
      induction d with
      | zero =>
        intro _
        exact draw_flag4_set f (statesFrom f inp i) (inp i).r (inp i).up
          h4i hupi
      | succ d ih =>
        intro hle
        have hmidd : (resultAt f inp (i + d + 1)).rarity ≠ Rarity.four :=
          hmid (i + d + 1) (by omega) (by omega)
        have hfro := draw_flag4_frozen f (statesFrom f inp (i + d + 1))
          (inp (i + d + 1)).r (inp (i + d + 1)).up hmidd
        calc (statesFrom f inp (i + (d + 1) + 1)).guaranteed_4star_up
            = (statesFrom f inp (i + d + 1)).guaranteed_4star_up := hfro
          _ = true := ih (by omega)
    have hjj : i + (j - i - 1) + 1 = j := by omega
    have hflag : (statesFrom f inp j).guaranteed_4star_up = true := by
      rw [← hjj]
      exact key (j - i - 1) (by omega)
    exact draw_flag4_forces f (statesFrom f inp j) (inp j).r (inp j).up
      hflag h4j

/-- C2 witness: on a banner where every pull is a 5-star (resp. 4-star) hit
and the UP roll never succeeds, draw 0 is a non-UP hit and draw 1 is forced
to be an UP hit. -/
theorem c2_consecutive_up_guarantee_witness :
    (resultAt cfgAllFive inpZero 1).is_up = true ∧
    (resultAt cfgAllFour inpZero 1).is_up = true := by
  constructor
  · exact (c2_consecutive_up_guarantee cfgAllFive inpZero 0 1).1
      (by norm_num)
      (by norm_num [resultAt, statesFrom, initialPityState, draw,
        caculate_rate_5star, caculate_rate, softPityBonus, cfgAllFive,
        inpZero])
      (by norm_num [resultAt, statesFrom, initialPityState, draw,
        caculate_rate_5star, caculate_rate, softPityBonus, cfgAllFive,
        inpZero])
      (by intro k hk1 hk2; omega)
      (by norm_num [resultAt, statesFrom, initialPityState, draw,
        caculate_rate_5star, caculate_rate, softPityBonus, cfgAllFive,
        inpZero])
  · exact (c2_consecutive_up_guarantee cfgAllFour inpZero 0 1).2
      (by norm_num)
      (by norm_num [resultAt, statesFrom, initialPityState, draw,
        caculate_rate_5star, caculate_rate_4star, caculate_rate,
        softPityBonus, cfgAllFour, cfgAllFive, inpZero])
      (by norm_num [resultAt, statesFrom, initialPityState, draw,
        caculate_rate_5star, caculate_rate_4star, caculate_rate,
        softPityBonus, cfgAllFour, cfgAllFive, inpZero])
      (by intro k hk1 hk2; omega)
      (by norm_num [resultAt, statesFrom, initialPityState, draw,
        caculate_rate_5star, caculate_rate_4star, caculate_rate,
        softPityBonus, cfgAllFour, cfgAllFive, inpZero])

/-- C10: the UP-subset-of-included containment is maintained by silent
repair: `validateUpItems` establishes it unconditionally, and
`removeIncludedItem` and `clearAllIncludedItems` preserve it (each also
deletes the removed included items from the corresponding tier's UP set). -/
theorem c10_up_subset_maintained :
    (∀ s, upSubsetInv (validateUpItems s)) ∧
    (∀ s itemName rarity, upSubsetInv s →
      upSubsetInv (removeIncludedItem s itemName rarity)) ∧
    (∀ s rarity, upSubsetInv s →
      upSubsetInv (clearAllIncludedItems s rarity)) := by
  refine ⟨?_, ?_, ?_⟩
  · intro s
    unfold validateUpItems upSubsetInv
    constructor
    · intro x hx
      simp only [Finset.mem_sdiff, Finset.mem_filter] at hx
      by_contra hnot
      exact hx.2 ⟨hx.1, hnot⟩
    · intro x hx
      simp only [Finset.mem_sdiff, Finset.mem_filter] at hx
      by_contra hnot
      exact hx.2 ⟨hx.1, hnot⟩
  · intro s itemName rarity hinv
    obtain ⟨h5, h4⟩ := hinv
    unfold removeIncludedItem upSubsetInv
    split_ifs with hr5 hmem5 hr4 hmem4
    · exact ⟨Finset.erase_subset_erase _ h5, h4⟩
    · refine ⟨?_, h4⟩
      intro x hx
      exact Finset.mem_erase.mpr
        ⟨fun he => hmem5 (he ▸ hx), h5 hx⟩
    · exact ⟨h5, Finset.erase_subset_erase _ h4⟩
    · refine ⟨h5, ?_⟩
      intro x hx
      exact Finset.mem_erase.mpr
        ⟨fun he => hmem4 (he ▸ hx), h4 hx⟩
    · exact ⟨h5, h4⟩
  · intro s rarity hinv
    obtain ⟨h5, h4⟩ := hinv
    unfold clearAllIncludedItems
    split_ifs with hr5 hr4
    · refine ⟨?_, h4⟩
      intro x hx
      simp only [Finset.mem_sdiff] at hx
      exact absurd (h5 hx.1) hx.2
    · refine ⟨h5, ?_⟩
      intro x hx
      simp only [Finset.mem_sdiff] at hx
      exact absurd (h4 hx.1) hx.2
    · exact ⟨h5, h4⟩

/-- C10 witness: the three operations applied to a concrete selection state
satisfying the containment. -/
theorem c10_up_subset_maintained_witness :
    upSubsetInv (validateUpItems sel0) ∧
    upSubsetInv (removeIncludedItem sel0 "a" 5) ∧
    upSubsetInv (clearAllIncludedItems sel0 5) :=
  ⟨c10_up_subset_maintained.1 sel0,
   c10_up_subset_maintained.2.1 sel0 "a" 5 (by decide),
   c10_up_subset_maintained.2.2 sel0 5 (by decide)⟩
